import Mathlib

/-!
Verification of the visit-schedule model mixins
(`edc_visit_schedule/model_mixins/visit_schedule_model_mixins.py`).

The file embeds, as executable Lean definitions:
  * the calendar data (dates, calendar units, relativedelta-style addition),
  * the registry data model (Visit, Schedule, VisitSchedule, the site
    registry of visit schedules),
  * the Python error values raised along the resolution paths,
  * the mixin methods `schedule`, `visit_schedule` and
    `timepoint_datetimes` as functions over an explicit model-instance
    record and an explicit registry state,
and proves the stated properties about them.
-/

set_option maxHeartbeats 1000000

namespace EdcVisitSchedule

/-- Calendar units accepted as a `relativedelta` keyword by
`timepoint_datetimes` (`visit.base_interval_unit`). -/
inductive TimeUnit
  | days
  | weeks
  | months
  | years
deriving DecidableEq, Repr

/-- Gregorian leap-year rule. -/
def isLeap (y : Int) : Bool :=
  (y % 4 == 0 && y % 100 != 0) || y % 400 == 0

/-- Number of days in month `m` (1..12) of year `y`. -/
def daysInMonth (y : Int) (m : Nat) : Nat :=
  if m == 2 then (if isLeap y then 29 else 28)
  else if m == 4 || m == 6 || m == 9 || m == 11 then 30
  else 31

/-- A calendar datetime, kept at day granularity: the time-of-day part is
never touched by the code under verification. -/
structure DateTime where
  year : Int
  month : Nat
  day : Nat
deriving DecidableEq, Repr

/-- A valid calendar date: month in 1..12 and day within the month. -/
def DateTime.Valid (d : DateTime) : Prop :=
  1 ≤ d.month ∧ d.month ≤ 12 ∧ 1 ≤ d.day ∧ d.day ≤ daysInMonth d.year d.month

instance (d : DateTime) : Decidable d.Valid := by
  unfold DateTime.Valid; infer_instance

/-- Successor day in the Gregorian calendar. -/
def nextDay (d : DateTime) : DateTime :=
  if d.day < daysInMonth d.year d.month then { d with day := d.day + 1 }
  else if d.month < 12 then { year := d.year, month := d.month + 1, day := 1 }
  else { year := d.year + 1, month := 1, day := 1 }

/-- Predecessor day in the Gregorian calendar. -/
def prevDay (d : DateTime) : DateTime :=
  if 1 < d.day then { d with day := d.day - 1 }
  else if 1 < d.month then
    { year := d.year, month := d.month - 1, day := daysInMonth d.year (d.month - 1) }
  else { year := d.year - 1, month := 12, day := 31 }

/-- Add a (possibly negative) number of days to a date. -/
def addDays (d : DateTime) (n : Int) : DateTime :=
  if 0 ≤ n then nextDay^[n.toNat] d else prevDay^[(-n).toNat] d

/-- Add a (possibly negative) number of months to a date, clamping the day
to the length of the target month (dateutil semantics). -/
def addMonths (d : DateTime) (n : Int) : DateTime :=
  let t : Int := d.year * 12 + ((d.month : Int) - 1) + n
  let y : Int := t / 12
  let m : Nat := (t % 12).toNat + 1
  { year := y, month := m, day := min d.day (daysInMonth y m) }

/-- Modelled from the spec: the calendar-offset utility
(`dateutil.relativedelta`, an external collaborator not reproduced under
`src/`) performs calendar-aware addition of a magnitude in a named unit,
respecting variable month and year lengths rather than fixed durations. -/
def relativedeltaAdd (d : DateTime) (u : TimeUnit) (n : Int) : DateTime :=
  match u with
  | .days => addDays d n
  | .weeks => addDays d (7 * n)
  | .months => addMonths d n
  | .years => addMonths d (12 * n)

/-- Total order key for dates: faithful to chronological order on valid
dates (month ≤ 12, day ≤ 31). -/
def dateKey (d : DateTime) : Int :=
  372 * d.year + 31 * ((d.month : Int) - 1) + ((d.day : Int) - 1)

/-- `a` is chronologically strictly before `b`. -/
def dateBefore (a b : DateTime) : Prop := dateKey a < dateKey b

instance (a b : DateTime) : Decidable (dateBefore a b) := by
  unfold dateBefore; infer_instance

/-- A visit definition: offset magnitude and calendar unit from baseline
(registry-owned, external to the mixin module). -/
structure Visit where
  base_interval : Int
  base_interval_unit : TimeUnit
deriving DecidableEq, Repr

/-- A schedule: a named ordered sequence of visit definitions. -/
structure Schedule where
  name : String
  visits : List Visit
deriving DecidableEq, Repr

/-- A visit schedule: a named collection of schedules keyed by name. -/
structure VisitSchedule where
  name : String
  schedules : List Schedule
deriving DecidableEq, Repr

/-- The Python error values arising on the resolution paths:
`ValueError` (tuple unpacking), `RegistryNotLoaded` and
`SiteVisitScheduleError` (raised by the site registry), the not-found
error raised by `VisitSchedule.get_schedule`, and the wrapper
`VisitScheduleModelError` raised by the mixin with a message and the
original exception as its cause (`raise ... from e`). -/
inductive PyError
  | valueError (msg : String)
  | registryNotLoaded (msg : String)
  | siteVisitScheduleError (msg : String)
  | scheduleNotFound (msg : String)
  | visitScheduleModelError (msg : String) (cause : PyError)
deriving DecidableEq, Repr

/-- Python `str(e)`: the message of the exception. -/
def PyError.str : PyError → String
  | .valueError m => m
  | .registryNotLoaded m => m
  | .siteVisitScheduleError m => m
  | .scheduleNotFound m => m
  | .visitScheduleModelError m _ => m

/-- Modelled from the spec: `VisitSchedule.get_schedule(schedule_name) ->
Schedule` is registry-owned code not under `src/`; per the spec it returns
the schedule keyed by `schedule_name` and raises a "not found" error
otherwise. -/
def VisitSchedule.get_schedule (vs : VisitSchedule) (schedule_name : String) :
    Except PyError Schedule :=
  match vs.schedules.find? (fun s => s.name == schedule_name) with
  | some s => Except.ok s
  | none =>
      Except.error (PyError.scheduleNotFound
        ("Schedule does not exist: " ++ schedule_name))

/-- The site registry state: whether it has been loaded, and the
registered visit schedules. -/
structure SiteVisitSchedules where
  loaded : Bool
  registry : List VisitSchedule
deriving DecidableEq, Repr

/-- Modelled from the spec: `site_visit_schedules.get_visit_schedule(name)`
is registry code not under `src/`; per the spec it raises a distinguishable
"not loaded" error (`RegistryNotLoaded`) when the registry has not been
initialized, a distinguishable "not found" error (`SiteVisitScheduleError`)
when `name` is not registered, and returns the registered visit schedule
otherwise. -/
def SiteVisitSchedules.get_visit_schedule (site : SiteVisitSchedules)
    (name : String) : Except PyError VisitSchedule :=
  if site.loaded then
    match site.registry.find? (fun vs => vs.name == name) with
    | some vs => Except.ok vs
    | none =>
        Except.error (PyError.siteVisitScheduleError
          ("visit schedule does not exist: " ++ name))
  else Except.error (PyError.registryNotLoaded "registry not loaded")

/-- Python `str.split` with the one-character separator "." : splits on
every occurrence, keeping empty segments ("" gives [""], "." gives
["", ""]). -/
def splitDotChars : List Char → List String
  | [] => [""]
  | c :: cs =>
      match splitDotChars cs with
      | [] => []
      | s :: rest =>
          if c = '.' then "" :: s :: rest
          else String.mk (c :: s.data) :: rest

/-- `path.split(".")` as in the property bodies. -/
def pySplitDot (s : String) : List String := splitDotChars s.data

/-- Python tuple unpacking `a, b = xs`: succeeds exactly when `xs` has two
elements, otherwise raises `ValueError` with the interpreter message. -/
def unpackPair (xs : List String) : Except PyError (String × String) :=
  match xs with
  | [a, b] => Except.ok (a, b)
  | [] =>
      Except.error (PyError.valueError
        "not enough values to unpack (expected 2, got 0)")
  | [_] =>
      Except.error (PyError.valueError
        "not enough values to unpack (expected 2, got 1)")
  | _ :: _ :: _ :: _ =>
      Except.error (PyError.valueError "too many values to unpack (expected 2)")

/-- An instance of a model declaring `VisitScheduleMethodsModelMixin` (with
the fields of `VisitScheduleFieldsModelMixin` and `visit_code` from
`VisitScheduleModelMixin`): `class_name` is `self.__class__.__name__`,
`meta_visit_schedule_name` is `self._meta.visit_schedule_name` (the dotted
path declared on `Meta`), and the remaining stored fields are the record
columns, which the mixin methods never read. -/
structure ModelInstance where
  class_name : String
  meta_visit_schedule_name : String
  visit_schedule_name : String
  schedule_name : String
  visit_code : Option String
deriving DecidableEq, Repr

/-- The `visit_schedule` property: split `Meta.visit_schedule_name` on "."
into `visit_schedule_name, _` (wrapping a `ValueError` as
`VisitScheduleModelError` with the class name and cause), then look the
first segment up in the site registry, wrapping `RegistryNotLoaded` and
`SiteVisitScheduleError` as `VisitScheduleModelError` with the
visit-schedule name and cause. -/
def ModelInstance.visit_schedule (self : ModelInstance)
    (site : SiteVisitSchedules) : Except PyError VisitSchedule :=
  match unpackPair (pySplitDot self.meta_visit_schedule_name) with
  | Except.error e =>
      Except.error (PyError.visitScheduleModelError
        (self.class_name ++ ". Got " ++ e.str) e)
  | Except.ok (visit_schedule_name, _) =>
      match site.get_visit_schedule visit_schedule_name with
      | Except.error (PyError.registryNotLoaded m) =>
          Except.error (PyError.visitScheduleModelError
            ("visit_schedule_name: \x27" ++ visit_schedule_name ++
              "\x27. Got " ++ m)
            (PyError.registryNotLoaded m))
      | Except.error (PyError.siteVisitScheduleError m) =>
          Except.error (PyError.visitScheduleModelError
            ("visit_schedule_name: \x27" ++ visit_schedule_name ++
              "\x27. Got " ++ m)
            (PyError.siteVisitScheduleError m))
      | Except.error e => Except.error e
      | Except.ok vs => Except.ok vs

/-- The `schedule` property: split `Meta.visit_schedule_name` on "." into
`_, schedule_name` (wrapping a `ValueError` as `VisitScheduleModelError`
with the class name and cause), then return
`self.visit_schedule.get_schedule(schedule_name=schedule_name)`; errors of
`visit_schedule` and of `get_schedule` propagate as raised. -/
def ModelInstance.schedule (self : ModelInstance)
    (site : SiteVisitSchedules) : Except PyError Schedule :=
  match unpackPair (pySplitDot self.meta_visit_schedule_name) with
  | Except.error e =>
      Except.error (PyError.visitScheduleModelError
        (self.class_name ++ ". Got " ++ e.str) e)
  | Except.ok (_, schedule_name) =>
      match self.visit_schedule site with
      | Except.error e => Except.error e
      | Except.ok vs => vs.get_schedule schedule_name

/-- `timepoint_datetimes(base_datetime, schedule)`: for each visit of the
schedule, in order, yield `(visit, base_datetime)` when
`visit.base_interval == 0` and otherwise
`(visit, base_datetime + relativedelta(**{unit: base_interval}))`. The
method reads nothing from `self`. -/
def ModelInstance.timepoint_datetimes (_self : ModelInstance)
    (base_datetime : DateTime) (schedule : Schedule) :
    List (Visit × DateTime) :=
  schedule.visits.map (fun visit =>
    if visit.base_interval = 0 then (visit, base_datetime)
    else (visit, relativedeltaAdd base_datetime visit.base_interval_unit
      visit.base_interval))

/-- The three error kinds of the specification taxonomy, as realized by the
code: a malformed path is a `VisitScheduleModelError` caused by a
`ValueError`; registry unavailability is a `VisitScheduleModelError` caused
by `RegistryNotLoaded`; an unresolvable name is either a
`VisitScheduleModelError` caused by `SiteVisitScheduleError` (visit
schedule not registered) or the not-found error of `get_schedule`
(schedule missing from the visit schedule). -/
inductive ErrKind
  | malformedPath
  | registryUnavailable
  | scheduleResolution
deriving DecidableEq, Repr

/-- Classify a raised error into the specification taxonomy. -/
def errKind : PyError → Option ErrKind
  | .visitScheduleModelError _ (.valueError _) => some .malformedPath
  | .visitScheduleModelError _ (.registryNotLoaded _) => some .registryUnavailable
  | .visitScheduleModelError _ (.siteVisitScheduleError _) => some .scheduleResolution
  | .scheduleNotFound _ => some .scheduleResolution
  | _ => none

/-- Classify the outcome of a resolution: `none` on success. -/
def resultErrKind {α : Type} : Except PyError α → Option ErrKind
  | .error e => errKind e
  | .ok _ => none

/-- Whether a resolution outcome is an error wrapped as
`VisitScheduleModelError`. -/
def isWrappedError {α : Type} : Except PyError α → Bool
  | .error (.visitScheduleModelError _ _) => true
  | _ => false

/-! ### Concrete fixtures used by witness and counterexample theorems -/

def c1Sch : Schedule := ⟨"arm1", [⟨0, .days⟩, ⟨2, .months⟩]⟩

def c1Vs : VisitSchedule := ⟨"protocol", [c1Sch]⟩

def c1Site : SiteVisitSchedules := ⟨true, [c1Vs]⟩

def c1Self : ModelInstance := ⟨"Crf", "protocol.arm1", "protocol", "arm1", none⟩

def c2Sch : Schedule := ⟨"arm1", [⟨0, .days⟩, ⟨2, .months⟩]⟩

def c2Self : ModelInstance := ⟨"Appointment", "protocol.arm1", "protocol", "arm1", none⟩

def c3Self : ModelInstance := ⟨"Crf", ".", "", "", none⟩

def c3Site : SiteVisitSchedules := ⟨true, []⟩

def c3SiteB : SiteVisitSchedules := ⟨false, [⟨"A", []⟩]⟩

def c3wSelf : ModelInstance := ⟨"Crf", "A", "A", "", none⟩

def c4Self : ModelInstance := ⟨"Crf", "A.B", "A", "B", none⟩

def c4SiteUnloaded : SiteVisitSchedules := ⟨false, []⟩

def c4SiteEmpty : SiteVisitSchedules := ⟨true, []⟩

def c4Vs : VisitSchedule := ⟨"A", []⟩

def c4SiteNoSch : SiteVisitSchedules := ⟨true, [c4Vs]⟩

def c6Bad : ModelInstance := ⟨"Crf", "A.B.C", "A", "B", none⟩

def c6Good : ModelInstance := ⟨"Crf", "A.B", "A", "B", none⟩

def c6Good2 : ModelInstance := ⟨"Appointment", "A.nonexistent", "A", "nonexistent", none⟩

def c6Vs : VisitSchedule := ⟨"A", [⟨"B", []⟩]⟩

def c6Site : SiteVisitSchedules := ⟨true, [c6Vs]⟩

def c7Self : ModelInstance := ⟨"Crf", "A.B", "A", "B", none⟩

def c7Vs : VisitSchedule := ⟨"A", []⟩

def c7Site : SiteVisitSchedules := ⟨true, [c7Vs]⟩

def c7Bad : ModelInstance := ⟨"Crf", "A", "A", "", none⟩

def c7SiteEmpty : SiteVisitSchedules := ⟨true, []⟩

def c8Self : ModelInstance := ⟨"Crf", "protocol.arm1", "protocol", "arm1", none⟩

def c8Self2 : ModelInstance := ⟨"Crf", "protocol.arm1", "other", "fields", some "code"⟩

def c8Site : SiteVisitSchedules := ⟨true, [⟨"protocol", [⟨"arm1", []⟩]⟩]⟩

def c9Sch : Schedule := ⟨"arm1", [⟨-2, .weeks⟩]⟩

def c9Self : ModelInstance := ⟨"Crf", "protocol.arm1", "protocol", "arm1", none⟩

/-! ### Supporting lemmas about the calendar model -/

theorem daysInMonth_le (y : Int) (m : Nat) : daysInMonth y m ≤ 31 := by
  unfold daysInMonth
  split
  · split <;> omega
  · split <;> omega

theorem daysInMonth_pos (y : Int) (m : Nat) : 1 ≤ daysInMonth y m := by
  unfold daysInMonth
  split
  · split <;> omega
  · split <;> omega

theorem daysInMonth_twelve (y : Int) : daysInMonth y 12 = 31 := rfl

theorem prevDay_valid (d : DateTime) (h : d.Valid) : (prevDay d).Valid := by
  obtain ⟨h1, h2, h3, h4⟩ := h
  have p1 := daysInMonth_pos d.year (d.month - 1)
  have p2 := daysInMonth_twelve (d.year - 1)
  unfold prevDay DateTime.Valid
  split
  · dsimp only
    exact ⟨h1, h2, by omega, by omega⟩
  · split
    · dsimp only
      exact ⟨by omega, by omega, by omega, by omega⟩
    · dsimp only
      exact ⟨by omega, by omega, by omega, by omega⟩

theorem dateKey_prevDay_lt (d : DateTime) (h : d.Valid) :
    dateKey (prevDay d) < dateKey d := by
  obtain ⟨h1, h2, h3, h4⟩ := h
  have q1 := daysInMonth_le d.year (d.month - 1)
  unfold prevDay
  split
  · dsimp only [dateKey]
    omega
  · split
    · dsimp only [dateKey]
      omega
    · dsimp only [dateKey]
      omega

theorem dateKey_iterate_prevDay_lt (k : Nat) (d : DateTime) (h : d.Valid) :
    dateKey (prevDay^[k + 1] d) < dateKey d := by
  induction k generalizing d with
  | zero => simpa using dateKey_prevDay_lt d h
  | succ k ih =>
      rw [Function.iterate_succ_apply]
      exact lt_trans (ih (prevDay d) (prevDay_valid d h)) (dateKey_prevDay_lt d h)

theorem dateKey_addDays_neg_lt (d : DateTime) (n : Int) (h : d.Valid)
    (hn : n < 0) : dateKey (addDays d n) < dateKey d := by
  unfold addDays
  rw [if_neg (by omega)]
  have hk : (-n).toNat = ((-n).toNat - 1) + 1 := by omega
  rw [hk]
  exact dateKey_iterate_prevDay_lt ((-n).toNat - 1) d h

theorem dateKey_addMonths_neg_lt (d : DateTime) (n : Int) (h : d.Valid)
    (hn : n < 0) : dateKey (addMonths d n) < dateKey d := by
  obtain ⟨h1, h2, h3, h4⟩ := h
  have hdim := daysInMonth_le d.year d.month
  dsimp only [addMonths, dateKey]
  omega

theorem relativedeltaAdd_neg_before (d : DateTime) (u : TimeUnit) (n : Int)
    (h : d.Valid) (hn : n < 0) : dateBefore (relativedeltaAdd d u n) d := by
  unfold dateBefore relativedeltaAdd
  cases u
  · exact dateKey_addDays_neg_lt d n h hn
  · exact dateKey_addDays_neg_lt d (7 * n) h (by omega)
  · exact dateKey_addMonths_neg_lt d n h hn
  · exact dateKey_addMonths_neg_lt d (12 * n) h (by omega)

/-! ### Supporting lemmas about parsing and resolution -/

theorem unpackPair_of_length_ne_two (xs : List String) (h : xs.length ≠ 2) :
    ∃ m, unpackPair xs = Except.error (PyError.valueError m) := by
  match xs with
  | [] => exact ⟨_, rfl⟩
  | [x] => exact ⟨_, rfl⟩
  | [x, y] => simp at h
  | x :: y :: z :: rest => exact ⟨_, rfl⟩

theorem schedule_malformed (self : ModelInstance) (site : SiteVisitSchedules)
    (h : (pySplitDot self.meta_visit_schedule_name).length ≠ 2) :
    ∃ m, self.schedule site =
      Except.error (PyError.visitScheduleModelError
        (self.class_name ++ ". Got " ++ m) (PyError.valueError m)) := by
  obtain ⟨m, hm⟩ := unpackPair_of_length_ne_two _ h
  exact ⟨m, by simp [ModelInstance.schedule, hm, PyError.str]⟩

theorem visit_schedule_malformed (self : ModelInstance)
    (site : SiteVisitSchedules)
    (h : (pySplitDot self.meta_visit_schedule_name).length ≠ 2) :
    ∃ m, self.visit_schedule site =
      Except.error (PyError.visitScheduleModelError
        (self.class_name ++ ". Got " ++ m) (PyError.valueError m)) := by
  obtain ⟨m, hm⟩ := unpackPair_of_length_ne_two _ h
  exact ⟨m, by simp [ModelInstance.visit_schedule, hm, PyError.str]⟩

theorem visit_schedule_found (self : ModelInstance)
    (site : SiteVisitSchedules) (a b : String) (vs : VisitSchedule)
    (hpath : pySplitDot self.meta_visit_schedule_name = [a, b])
    (hload : site.loaded = true)
    (hfind : site.registry.find? (fun v => v.name == a) = some vs) :
    self.visit_schedule site = Except.ok vs := by
  simp [ModelInstance.visit_schedule, hpath, unpackPair,
    SiteVisitSchedules.get_visit_schedule, hload, hfind]

/-! ### Claim theorems -/

/-- C1: for a well-formed path `"A.B"` (splitting into exactly the two
segments `A` and `B`) whose visit-schedule name `A` is registered in the
loaded registry and whose schedule name `B` exists within that visit
schedule, the `schedule` property returns the Schedule named `B` inside
the VisitSchedule named `A`. -/
theorem C1_resolve_schedule_returns_named_schedule
    (self : ModelInstance) (site : SiteVisitSchedules)
    (a b : String) (vs : VisitSchedule) (sch : Schedule)
    (hpath : pySplitDot self.meta_visit_schedule_name = [a, b])
    (hload : site.loaded = true)
    (hvs : site.registry.find? (fun v => v.name == a) = some vs)
    (hsch : vs.schedules.find? (fun s => s.name == b) = some sch) :
    self.schedule site = Except.ok sch ∧ vs.name = a ∧ sch.name = b := by
  refine ⟨?_, ?_, ?_⟩
  · simp [ModelInstance.schedule, hpath, unpackPair,
      visit_schedule_found self site a b vs hpath hload hvs,
      VisitSchedule.get_schedule, hsch]
  · simpa using List.find?_some hvs
  · simpa using List.find?_some hsch

/-- Witness for C1 at the concrete path "protocol.arm1". -/
theorem C1_witness :
    pySplitDot c1Self.meta_visit_schedule_name = ["protocol", "arm1"] ∧
    c1Site.loaded = true ∧
    c1Site.registry.find? (fun v => v.name == "protocol") = some c1Vs ∧
    c1Vs.schedules.find? (fun s => s.name == "arm1") = some c1Sch ∧
    (c1Self.schedule c1Site = Except.ok c1Sch ∧
      c1Vs.name = "protocol" ∧ c1Sch.name = "arm1") :=
  ⟨rfl, rfl, rfl, rfl,
    C1_resolve_schedule_returns_named_schedule c1Self c1Site "protocol" "arm1"
      c1Vs c1Sch rfl rfl rfl rfl⟩

/-- C2: for every visit of the schedule, `timepoint_datetimes` emits
`(visit, baseline)` unmodified when `base_interval = 0` and otherwise
`(visit, baseline + relativedelta(**{unit: base_interval}))`, the
calendar-aware offset in the named unit. -/
theorem C2_timepoint_branch (self : ModelInstance) (base : DateTime)
    (sch : Schedule) (i : Nat) (v : Visit)
    (hv : sch.visits[i]? = some v) :
    (self.timepoint_datetimes base sch)[i]? =
      some (if v.base_interval = 0 then (v, base)
        else (v, relativedeltaAdd base v.base_interval_unit v.base_interval)) := by
  simp [ModelInstance.timepoint_datetimes, List.getElem?_map, hv]

/-- Witness for C2 at a zero-interval visit and a two-month visit over
baseline 2024-01-31 (the offset lands on the calendar-correct
2024-03-31). -/
theorem C2_witness :
    c2Sch.visits[1]? = some ⟨2, TimeUnit.months⟩ ∧
    (c2Self.timepoint_datetimes ⟨2024, 1, 31⟩ c2Sch)[1]? =
      some (if (Visit.mk 2 TimeUnit.months).base_interval = 0
        then (Visit.mk 2 TimeUnit.months, ⟨2024, 1, 31⟩)
        else (Visit.mk 2 TimeUnit.months,
          relativedeltaAdd ⟨2024, 1, 31⟩ TimeUnit.months 2)) ∧
    relativedeltaAdd ⟨2024, 1, 31⟩ TimeUnit.months 2 = ⟨2024, 3, 31⟩ :=
  ⟨rfl,
    C2_timepoint_branch c2Self ⟨2024, 1, 31⟩ c2Sch 1 ⟨2, TimeUnit.months⟩ rfl,
    by decide⟩

/-- C3 counterexample: the path "." splits into exactly two (empty)
segments, so tuple unpacking succeeds, no malformed-path error is raised,
and the registry lookup is attempted (failing as an unresolvable-name
error instead). This refutes the claim that a path with empty segments
such as "." fails with the malformed-path error with no lookup
attempted. -/
theorem C3_counterexample :
    pySplitDot c3Self.meta_visit_schedule_name = ["", ""] ∧
    resultErrKind (c3Self.schedule c3Site) ≠ some ErrKind.malformedPath ∧
    resultErrKind (c3Self.schedule c3Site) = some ErrKind.scheduleResolution := by
  refine ⟨rfl, ?_, rfl⟩
  decide

/-- C3 (amended): for every path that does not split into exactly two
segments on "." (for example "A", "A.B.C", ""), resolution fails with the
malformed-path error and no lookup is attempted (the outcome does not
depend on the registry); a path with empty segments, such as ".", splits
into exactly two parts, so parsing succeeds there and lookup proceeds. -/
theorem C3_malformed_path_error (self : ModelInstance)
    (site site' : SiteVisitSchedules)
    (h : (pySplitDot self.meta_visit_schedule_name).length ≠ 2) :
    resultErrKind (self.schedule site) = some ErrKind.malformedPath ∧
    self.schedule site = self.schedule site' := by
  obtain ⟨m, hm⟩ := unpackPair_of_length_ne_two _ h
  constructor
  · simp [ModelInstance.schedule, hm, resultErrKind, errKind]
  · simp [ModelInstance.schedule, hm]

/-- Witness for the amended C3 at the one-segment path "A", with two
different registry states. -/
theorem C3_witness :
    (pySplitDot c3wSelf.meta_visit_schedule_name).length ≠ 2 ∧
    (resultErrKind (c3wSelf.schedule c3Site) = some ErrKind.malformedPath ∧
      c3wSelf.schedule c3Site = c3wSelf.schedule c3SiteB) :=
  ⟨by decide, C3_malformed_path_error c3wSelf c3Site c3SiteB (by decide)⟩

/-- C4: with a syntactically valid path, resolution against an unloaded
registry fails with the registry-unavailable kind (wrapped
`RegistryNotLoaded`); resolution with an unregistered visit-schedule name,
or with a schedule name missing from the visit schedule, fails with the
schedule-resolution kind; the three kinds of the taxonomy are pairwise
distinct. -/
theorem C4_error_kind_taxonomy (self : ModelInstance)
    (siteU siteN siteM : SiteVisitSchedules) (a b : String)
    (vs : VisitSchedule)
    (hpath : pySplitDot self.meta_visit_schedule_name = [a, b])
    (hU : siteU.loaded = false)
    (hNload : siteN.loaded = true)
    (hN : siteN.registry.find? (fun v => v.name == a) = none)
    (hMload : siteM.loaded = true)
    (hM : siteM.registry.find? (fun v => v.name == a) = some vs)
    (hMsch : vs.schedules.find? (fun s => s.name == b) = none) :
    resultErrKind (self.schedule siteU) = some ErrKind.registryUnavailable ∧
    resultErrKind (self.schedule siteN) = some ErrKind.scheduleResolution ∧
    resultErrKind (self.schedule siteM) = some ErrKind.scheduleResolution ∧
    ErrKind.registryUnavailable ≠ ErrKind.scheduleResolution ∧
    ErrKind.malformedPath ≠ ErrKind.registryUnavailable ∧
    ErrKind.malformedPath ≠ ErrKind.scheduleResolution := by
  refine ⟨?_, ?_, ?_, by decide, by decide, by decide⟩
  · simp [ModelInstance.schedule, ModelInstance.visit_schedule, hpath,
      unpackPair, SiteVisitSchedules.get_visit_schedule, hU,
      resultErrKind, errKind]
  · simp [ModelInstance.schedule, ModelInstance.visit_schedule, hpath,
      unpackPair, SiteVisitSchedules.get_visit_schedule, hNload, hN,
      resultErrKind, errKind]
  · simp [ModelInstance.schedule, hpath, unpackPair,
      visit_schedule_found self siteM a b vs hpath hMload hM,
      VisitSchedule.get_schedule, hMsch, resultErrKind, errKind]

/-- Witness for C4 at path "A.B" against an unloaded registry, a loaded
empty registry, and a loaded registry whose visit schedule "A" lacks a
schedule "B". -/
theorem C4_witness :
    pySplitDot c4Self.meta_visit_schedule_name = ["A", "B"] ∧
    c4SiteUnloaded.loaded = false ∧
    c4SiteEmpty.loaded = true ∧
    c4SiteEmpty.registry.find? (fun v => v.name == "A") = none ∧
    c4SiteNoSch.loaded = true ∧
    c4SiteNoSch.registry.find? (fun v => v.name == "A") = some c4Vs ∧
    c4Vs.schedules.find? (fun s => s.name == "B") = none ∧
    (resultErrKind (c4Self.schedule c4SiteUnloaded) =
        some ErrKind.registryUnavailable ∧
      resultErrKind (c4Self.schedule c4SiteEmpty) =
        some ErrKind.scheduleResolution ∧
      resultErrKind (c4Self.schedule c4SiteNoSch) =
        some ErrKind.scheduleResolution ∧
      ErrKind.registryUnavailable ≠ ErrKind.scheduleResolution ∧
      ErrKind.malformedPath ≠ ErrKind.registryUnavailable ∧
      ErrKind.malformedPath ≠ ErrKind.scheduleResolution) :=
  ⟨rfl, rfl, rfl, rfl, rfl, rfl, rfl,
    C4_error_kind_taxonomy c4Self c4SiteUnloaded c4SiteEmpty c4SiteNoSch
      "A" "B" c4Vs rfl rfl rfl rfl rfl rfl rfl⟩

/-- C5: `timepoint_datetimes` returns a finite sequence whose length
equals the number of visits in the schedule and whose elements appear in
the schedule's canonical visit order (projecting the first components
gives back exactly the visit list). -/
theorem C5_length_and_order (self : ModelInstance) (base : DateTime)
    (sch : Schedule) :
    (self.timepoint_datetimes base sch).length = sch.visits.length ∧
    (self.timepoint_datetimes base sch).map Prod.fst = sch.visits := by
  constructor
  · simp [ModelInstance.timepoint_datetimes]
  · simp only [ModelInstance.timepoint_datetimes, List.map_map]
    have hfst : (Prod.fst ∘ fun visit : Visit =>
        if visit.base_interval = 0 then (visit, base)
        else (visit, relativedeltaAdd base visit.base_interval_unit
          visit.base_interval)) = fun visit => visit := by
      funext visit
      by_cases hv : visit.base_interval = 0 <;> simp [hv]
    rw [hfst]
    exact List.map_id sch.visits

/-- C6: the `visit_schedule` property parses the full dotted path — a path
that does not split into exactly two segments yields the malformed-path
error — but performs the registry lookup using only the first segment:
the second segment is discarded, never checked for existence, so any two
records sharing the first segment resolve identically, and a record
resolves to the registered visit schedule even when its second segment
names no schedule inside it. -/
theorem C6_second_segment_discarded (bad good good' : ModelInstance)
    (site : SiteVisitSchedules) (a b b' : String) (vs : VisitSchedule)
    (hbad : (pySplitDot bad.meta_visit_schedule_name).length ≠ 2)
    (hg : pySplitDot good.meta_visit_schedule_name = [a, b])
    (hg' : pySplitDot good'.meta_visit_schedule_name = [a, b'])
    (hload : site.loaded = true)
    (hfind : site.registry.find? (fun v => v.name == a) = some vs) :
    resultErrKind (bad.visit_schedule site) = some ErrKind.malformedPath ∧
    good.visit_schedule site = good'.visit_schedule site ∧
    good.visit_schedule site = Except.ok vs := by
  obtain ⟨m, hm⟩ := visit_schedule_malformed bad site hbad
  refine ⟨?_, ?_, visit_schedule_found good site a b vs hg hload hfind⟩
  · simp [hm, resultErrKind, errKind]
  · rw [visit_schedule_found good site a b vs hg hload hfind,
      visit_schedule_found good' site a b' vs hg' hload hfind]

/-- Witness for C6: "A.B.C" is malformed; "A.B" and "A.nonexistent"
resolve to the same visit schedule "A" even though "nonexistent" names no
schedule inside it. -/
theorem C6_witness :
    (pySplitDot c6Bad.meta_visit_schedule_name).length ≠ 2 ∧
    pySplitDot c6Good.meta_visit_schedule_name = ["A", "B"] ∧
    pySplitDot c6Good2.meta_visit_schedule_name = ["A", "nonexistent"] ∧
    c6Site.loaded = true ∧
    c6Site.registry.find? (fun v => v.name == "A") = some c6Vs ∧
    (resultErrKind (c6Bad.visit_schedule c6Site) =
        some ErrKind.malformedPath ∧
      c6Good.visit_schedule c6Site = c6Good2.visit_schedule c6Site ∧
      c6Good.visit_schedule c6Site = Except.ok c6Vs) :=
  ⟨by decide, rfl, rfl, rfl, rfl,
    C6_second_segment_discarded c6Bad c6Good c6Good2 c6Site "A" "B"
      "nonexistent" c6Vs (by decide) rfl rfl rfl rfl⟩

/-- C7 counterexample: resolving "A.B" where the visit schedule "A" is
registered but contains no schedule "B" propagates the not-found error of
`get_schedule` exactly as raised: it is not wrapped as
`VisitScheduleModelError`, so it carries neither the offending record
type nor a separate underlying cause — refuting the claim that every
resolution error is so wrapped. -/
theorem C7_counterexample :
    c7Self.schedule c7Site =
      Except.error (PyError.scheduleNotFound "Schedule does not exist: B") ∧
    isWrappedError (c7Self.schedule c7Site) = false := by
  exact ⟨rfl, rfl⟩

/-- C7 (amended): every resolution error is raised synchronously and no
fallback schedule is substituted, but the wrapping context differs by
stage: a parse failure is wrapped with the record type and the underlying
`ValueError` as cause; a registry failure is wrapped with the offending
visit-schedule name (not the record type) and the underlying registry
error as cause; a schedule name missing from the visit schedule
propagates the not-found error of `get_schedule` unwrapped. -/
theorem C7_error_wrapping (bad good miss : ModelInstance)
    (site siteG siteM : SiteVisitSchedules) (e : PyError)
    (a b am bm : String) (vs : VisitSchedule)
    (hbad : unpackPair (pySplitDot bad.meta_visit_schedule_name) =
      Except.error e)
    (hg : pySplitDot good.meta_visit_schedule_name = [a, b])
    (hloadG : siteG.loaded = true)
    (hfindG : siteG.registry.find? (fun v => v.name == a) = none)
    (hm : pySplitDot miss.meta_visit_schedule_name = [am, bm])
    (hloadM : siteM.loaded = true)
    (hfindM : siteM.registry.find? (fun v => v.name == am) = some vs)
    (hmiss : vs.schedules.find? (fun s => s.name == bm) = none) :
    bad.schedule site =
      Except.error (PyError.visitScheduleModelError
        (bad.class_name ++ ". Got " ++ e.str) e) ∧
    good.schedule siteG =
      Except.error (PyError.visitScheduleModelError
        ("visit_schedule_name: \x27" ++ a ++ "\x27. Got " ++
          ("visit schedule does not exist: " ++ a))
        (PyError.siteVisitScheduleError
          ("visit schedule does not exist: " ++ a))) ∧
    miss.schedule siteM =
      Except.error (PyError.scheduleNotFound
        ("Schedule does not exist: " ++ bm)) := by
  refine ⟨?_, ?_, ?_⟩
  · simp [ModelInstance.schedule, hbad]
  · simp [ModelInstance.schedule, ModelInstance.visit_schedule, hg,
      unpackPair, SiteVisitSchedules.get_visit_schedule, hloadG, hfindG]
  · simp [ModelInstance.schedule, hm, unpackPair,
      visit_schedule_found miss siteM am bm vs hm hloadM hfindM,
      VisitSchedule.get_schedule, hmiss]

/-- Witness for the amended C7 at the malformed path "A", the unregistered
path "A.B" against an empty registry, and the path "A.B" whose visit
schedule "A" lacks schedule "B". -/
theorem C7_witness :
    unpackPair (pySplitDot c7Bad.meta_visit_schedule_name) =
      Except.error (PyError.valueError
        "not enough values to unpack (expected 2, got 1)") ∧
    pySplitDot c7Self.meta_visit_schedule_name = ["A", "B"] ∧
    c7SiteEmpty.loaded = true ∧
    c7SiteEmpty.registry.find? (fun v => v.name == "A") = none ∧
    c7Site.loaded = true ∧
    c7Site.registry.find? (fun v => v.name == "A") = some c7Vs ∧
    c7Vs.schedules.find? (fun s => s.name == "B") = none ∧
    (c7Bad.schedule c7SiteEmpty =
        Except.error (PyError.visitScheduleModelError
          (c7Bad.class_name ++ ". Got " ++
            (PyError.valueError
              "not enough values to unpack (expected 2, got 1)").str)
          (PyError.valueError
            "not enough values to unpack (expected 2, got 1)")) ∧
      c7Self.schedule c7SiteEmpty =
        Except.error (PyError.visitScheduleModelError
          ("visit_schedule_name: \x27" ++ "A" ++ "\x27. Got " ++
            ("visit schedule does not exist: " ++ "A"))
          (PyError.siteVisitScheduleError
            ("visit schedule does not exist: " ++ "A"))) ∧
      c7Self.schedule c7Site =
        Except.error (PyError.scheduleNotFound
          ("Schedule does not exist: " ++ "B"))) :=
  ⟨rfl, rfl, rfl, rfl, rfl, rfl, rfl,
    C7_error_wrapping c7Bad c7Self c7Self c7SiteEmpty c7SiteEmpty c7Site
      (PyError.valueError "not enough values to unpack (expected 2, got 1)")
      "A" "B" "A" "B" c7Vs rfl rfl rfl rfl rfl rfl rfl rfl⟩

/-- C8: resolution is idempotent and depends only on the stored path and
the registry contents: two calls with the same path and unchanged registry
return equal Schedule data, and a record differing only in the other
stored fields resolves to the same result. -/
theorem C8_resolution_idempotent (self self' : ModelInstance)
    (site : SiteVisitSchedules)
    (hc : self'.class_name = self.class_name)
    (hm : self'.meta_visit_schedule_name = self.meta_visit_schedule_name) :
    self.schedule site = self.schedule site ∧
    self'.schedule site = self.schedule site := by
  refine ⟨rfl, ?_⟩
  obtain ⟨cn, mv, f1, f2, f3⟩ := self
  obtain ⟨cn', mv', g1, g2, g3⟩ := self'
  dsimp only at hc hm
  subst hc
  subst hm
  rfl

/-- Witness for C8 with two records sharing class and path but differing
in every other stored field. -/
theorem C8_witness :
    c8Self2.class_name = c8Self.class_name ∧
    c8Self2.meta_visit_schedule_name = c8Self.meta_visit_schedule_name ∧
    (c8Self.schedule c8Site = c8Self.schedule c8Site ∧
      c8Self2.schedule c8Site = c8Self.schedule c8Site) :=
  ⟨rfl, rfl, C8_resolution_idempotent c8Self c8Self2 c8Site rfl rfl⟩

/-- C9: `timepoint_datetimes` never validates the sign of
`base_interval`: a visit with a negative interval takes the offset branch
and is emitted with the baseline displaced by that negative interval — a
datetime strictly before the baseline — with no error raised. -/
theorem C9_negative_interval_before_baseline (self : ModelInstance)
    (base : DateTime) (sch : Schedule) (i : Nat) (v : Visit)
    (hv : sch.visits[i]? = some v)
    (hneg : v.base_interval < 0)
    (hvalid : base.Valid) :
    (self.timepoint_datetimes base sch)[i]? =
      some (v, relativedeltaAdd base v.base_interval_unit v.base_interval) ∧
    dateBefore (relativedeltaAdd base v.base_interval_unit v.base_interval)
      base := by
  constructor
  · have hne : ¬ v.base_interval = 0 := by omega
    simp [ModelInstance.timepoint_datetimes, List.getElem?_map, hv, hne]
  · exact relativedeltaAdd_neg_before base v.base_interval_unit
      v.base_interval hvalid hneg

/-- Witness for C9 at a visit of -2 weeks over baseline 2024-03-15. -/
theorem C9_witness :
    c9Sch.visits[0]? = some ⟨-2, TimeUnit.weeks⟩ ∧
    (Visit.mk (-2) TimeUnit.weeks).base_interval < 0 ∧
    (DateTime.mk 2024 3 15).Valid ∧
    ((c9Self.timepoint_datetimes ⟨2024, 3, 15⟩ c9Sch)[0]? =
        some (⟨-2, TimeUnit.weeks⟩,
          relativedeltaAdd ⟨2024, 3, 15⟩ TimeUnit.weeks (-2)) ∧
      dateBefore (relativedeltaAdd ⟨2024, 3, 15⟩ TimeUnit.weeks (-2))
        ⟨2024, 3, 15⟩) :=
  ⟨rfl, by decide, by decide,
    C9_negative_interval_before_baseline c9Self ⟨2024, 3, 15⟩ c9Sch 0
      ⟨-2, TimeUnit.weeks⟩ rfl (by decide) (by decide)⟩

/-- C10: `timepoint_datetimes` is a pure function of `base_datetime` and
`schedule`: it reads none of the stored fields of the record (nor the
registry), so any two record instances with arbitrarily different field
values produce identical (visit, datetime) sequences on the same
arguments. -/
theorem C10_independent_of_record (self self' : ModelInstance)
    (base : DateTime) (sch : Schedule) :
    self.timepoint_datetimes base sch = self'.timepoint_datetimes base sch :=
  rfl

end EdcVisitSchedule
